import Mathlib

/-!
Verification of the edit/share/preview core of `src/pages/index.tsx`.

The file embeds, as executable Lean definitions:

* the server-side render gate `getStaticProps` (preview resolution against
  the S3 blob store), and
* the client-side edit/share session of the `Home` component (the React
  state hooks `currentSnapshotId`, `isEdit`, `hasSaveRequest`,
  `isSharingView`, `currentError` and the event handlers `toggleEdit`,
  `share`, the save-response continuations, `onClearError`,
  `clearSnapshot`),

and proves the specified properties about them.  The `/api/save` handler is
not part of the sources, so it is modelled from the specification where a
claim needs it (see `SnapshotService.save`).
-/

/-- A field edit as built by `share()` (`{ id, innerText }`, index.tsx:99)
and as stored inside a snapshot blob. -/
structure FieldEdit where
  id : String
  innerText : String
deriving DecidableEq, Repr

/-- The body of a stored object, abstracting the JSON layer: a body is
either the JSON serialization of a `FieldEdit` array, or text that is not
valid JSON (on which `JSON.parse` throws). -/
inductive Blob where
  | ofEdits (edits : List FieldEdit)
  | invalid
deriving DecidableEq, Repr

/-- Contract of `JSON.parse(object.Body.toString())` (index.tsx:44): returns
the parsed edits when the body is their serialization, throws (`none`)
otherwise. -/
def parseBody : Blob → Option (List FieldEdit)
  | Blob.ofEdits edits => some edits
  | Blob.invalid => none

/-- Outcome of `s3.getObject(...).promise()` (index.tsx:37-42): either the
object body, or a thrown error carrying an optional numeric `statusCode`
(AWS errors carry one; other thrown values may not). -/
inductive FetchResult where
  | success (body : Blob)
  | failure (statusCode : Option Nat)

/-- The blob store, keyed by object key (index.tsx:40 uses key
`"<snapshotId>.json"`). -/
def Store : Type := String → FetchResult

/-- The props object returned by `getStaticProps`.  Absent JS object fields
are `none`. -/
structure PageProps where
  isPreview : Bool
  snapshotId : Option String
  contents : Option (List FieldEdit)
  hasError : Option Bool
  message : Option String
deriving DecidableEq, Repr

/-- Props `{ isPreview: true, snapshotId, contents }` (index.tsx:46). -/
def previewProps (sid : String) (contents : List FieldEdit) : PageProps :=
  ⟨true, some sid, some contents, none, none⟩

/-- Props `{ isPreview: false, hasError: true, message }` (index.tsx:50-59). -/
def errorProps (msg : String) : PageProps :=
  ⟨false, none, none, some true, some msg⟩

/-- Props `{ isPreview: false }` (index.tsx:63). -/
def normalProps : PageProps :=
  ⟨false, none, none, none, none⟩

/-- Error message for the `statusCode === 403` branch (index.tsx:57). -/
def notExistMessage : String := "The requested preview edit does not exist!"

/-- Error message for every other caught error (index.tsx:58). -/
def connectionErrorMessage : String :=
  "An error has occurred while connecting to S3. Please refresh the page to try again."

/-- Embedding of `getStaticProps` (index.tsx:23-64).  `preview` and
`previewData` are the Next.js preview flag and data; `store` is the S3
bucket state.  The result is `none` only when `preview` is true and
`previewData` is absent: destructuring `previewData` happens outside the
`try` block (index.tsx:33) and would throw uncaught. -/
def getStaticProps (preview : Bool) (previewData : Option String) (store : Store) :
    Option PageProps :=
  if preview then
    match previewData with
    | none => none
    | some snapshotId =>
      match store (snapshotId ++ ".json") with
      | FetchResult.success body =>
        match parseBody body with
        | some contents => some (previewProps snapshotId contents)
        | none => some (errorProps connectionErrorMessage)
      | FetchResult.failure statusCode =>
        some (errorProps
          (if statusCode = some 403 then notExistMessage else connectionErrorMessage))
  else
    some normalProps

/-- Modelled from the spec: the `/api/save` handler (`SnapshotService.save`,
spec §4.2) is not under `src/`; only its client caller `share()` is.  Per
the spec it mints a fresh opaque id, serializes the edits to a JSON array,
writes them to the BlobStore under key `"<id>.json"`, and returns the id.
The fresh id is passed in as `freshId`; the result is the updated store and
the returned id. -/
def SnapshotService.save (edits : List FieldEdit) (freshId : String) (store : Store) :
    Store × String :=
  (fun key => if key = freshId ++ ".json" then FetchResult.success (Blob.ofEdits edits)
              else store key,
   freshId)

/- ### Client-side model (the `Home` component, index.tsx:66-188) -/

/-- A DOM element candidate for `document.querySelectorAll('[id] >
[contenteditable=true]')` (index.tsx:96): its parent's `id` attribute (if
any), its `contenteditable` flag, and its `innerText`. -/
structure EditableEl where
  parentId : Option String
  contentEditable : Bool
  innerText : String
deriving DecidableEq, Repr

/-- The query and mapping of index.tsx:96-99: keep the elements matching
`[id] > [contenteditable=true]`, in document order, and build
`{ id: parentNode.id, innerText }` for each. -/
def queryEditable (page : List EditableEl) : List FieldEdit :=
  page.filterMap (fun el =>
    match el.parentId, el.contentEditable with
    | some pid, true => some ⟨pid, el.innerText⟩
    | _, _ => none)

/-- The outbound `fetch('/api/save', { method: 'POST', body:
JSON.stringify(persistContents), ... })` call (index.tsx:101-106). -/
structure SaveRequest where
  url : String
  body : List FieldEdit
deriving DecidableEq, Repr

/-- Settled outcome of a save request as seen by the continuations
(index.tsx:107-118): `ok snapshotId` when `res.ok` and the JSON body carries
`snapshotId`; `err message` when the response status is non-ok (message is
the response text) or the fetch itself rejected. -/
inductive SaveResult where
  | ok (snapshotId : String)
  | err (message : String)
deriving DecidableEq, Repr

/-- The React state of `Home` (index.tsx:70-87): `currentSnapshotId`,
`isEdit`, the `hasSaveRequest` ref, `isSharingView`, `currentError` (the
error is kept as its message). -/
structure ClientState where
  currentSnapshotId : Option String
  isEdit : Bool
  hasSaveRequest : Bool
  isSharingView : Bool
  currentError : Option String
deriving DecidableEq, Repr

/-- Initial hook values (index.tsx:70-87): all `null`/`false`. -/
def initialState : ClientState := ⟨none, false, false, false, none⟩

/-- Embedding of `setSharing` (index.tsx:79-85): writes the
`hasSaveRequest` ref and the `isSharingView` state together. -/
def setSharing (s : ClientState) (sharing : Bool) : ClientState :=
  ⟨s.currentSnapshotId, s.isEdit, sharing, sharing, s.currentError⟩

/-- Embedding of `setSnapshotId` (index.tsx:70). -/
def setSnapshotId (s : ClientState) (v : Option String) : ClientState :=
  ⟨v, s.isEdit, s.hasSaveRequest, s.isSharingView, s.currentError⟩

/-- Embedding of `setError` (index.tsx:87). -/
def setError (s : ClientState) (v : Option String) : ClientState :=
  ⟨s.currentSnapshotId, s.isEdit, s.hasSaveRequest, s.isSharingView, v⟩

/-- Events of the single-threaded client event loop: the user handlers
`toggleEdit` (index.tsx:74), `share` clicked against the current page DOM
(index.tsx:92), the settling of an issued save request running the
`.then/.catch/.finally` continuations (index.tsx:107-121), `onClearError`
(index.tsx:88) and `clearSnapshot` (index.tsx:71). -/
inductive Event where
  | toggleEdit
  | shareClick (page : List EditableEl)
  | saveResponse (r : SaveResult)
  | clearError
  | clearSnapshot

/-- One event-loop step: the new state together with the list of outbound
save requests the handler issues.  `shareClick` embeds `share()`
(index.tsx:92-122): it returns immediately when `hasSaveRequest.current` is
set (index.tsx:93), otherwise sets the sharing guard and issues exactly one
request with the queried contents.  `saveResponse` embeds the continuation
chain: on success `setSnapshotId(snapshotId)`, on failure `setError(err)`,
and in both cases `finally` runs `setSharing(false)`. -/
def step (s : ClientState) : Event → ClientState × List SaveRequest
  | Event.toggleEdit => (⟨s.currentSnapshotId, !s.isEdit, s.hasSaveRequest,
                          s.isSharingView, s.currentError⟩, [])
  | Event.shareClick page =>
      if s.hasSaveRequest then (s, [])
      else (setSharing s true, [⟨"/api/save", queryEditable page⟩])
  | Event.saveResponse (SaveResult.ok sid) =>
      (setSharing (setSnapshotId s (some sid)) false, [])
  | Event.saveResponse (SaveResult.err m) =>
      (setSharing (setError s (some m)) false, [])
  | Event.clearError => (setError s none, [])
  | Event.clearSnapshot => (setSnapshotId s none, [])

/-- Run a sequence of events, collecting every outbound save request in
order. -/
def run (s : ClientState) : List Event → ClientState × List SaveRequest
  | [] => (s, [])
  | e :: es =>
    let r := step s e
    let r' := run r.1 es
    (r'.1, r.2 ++ r'.2)

/-- Number of accepted transitions into `Sharing` along an event sequence: a
`shareClick` arriving while the guard is free. -/
def acceptedShares (s : ClientState) : List Event → Nat
  | [] => 0
  | e :: es =>
    (match e with
     | Event.shareClick _ => if s.hasSaveRequest then 0 else 1
     | _ => 0) + acceptedShares (step s e).1 es

/-- The spec's abstract client session states (spec §3, `SessionState`). -/
inductive SessionState where
  | Viewing
  | Editing
  | Sharing
  | ShowingLink (snapshotId : String)
  | ShowingError (message : String)
deriving DecidableEq, Repr

/-- Abstraction of the concrete hook state into the spec's `SessionState`
(spec §9 notes the booleans are "conceptually one finite-state machine").
The dialogs take priority in the order the component renders them
(error dialog, then share-link dialog, index.tsx:134-148), then the
in-flight save, then edit mode. -/
def sessionState (s : ClientState) : SessionState :=
  match s.currentError with
  | some m => SessionState.ShowingError m
  | none =>
    match s.currentSnapshotId with
    | some sid => SessionState.ShowingLink sid
    | none =>
      if s.hasSaveRequest then SessionState.Sharing
      else if s.isEdit then SessionState.Editing
      else SessionState.Viewing

/- ### Theorems -/

/-- C1.  Round-trip: saving a `FieldEdit` sequence via `SnapshotService.save`
under a fresh id and then resolving a preview for that id fetches
`"<id>.json"` from the store, the body parses back, and the decision is the
preview of exactly the saved edits. -/
theorem save_resolve_round_trip (edits : List FieldEdit) (freshId : String) (store : Store) :
    getStaticProps true (some (SnapshotService.save edits freshId store).2)
        (SnapshotService.save edits freshId store).1
      = some (previewProps freshId edits) := by
  simp [getStaticProps, SnapshotService.save, parseBody]

/-- C2, counterexample.  Resolving a preview for a never-saved id (every
fetch fails with status 403) yields the message
`"The requested preview edit does not exist!"` (index.tsx:57), which is not
the string `"the requested preview does not exist"` stated by the claim. -/
theorem notExist_message_counterexample :
    getStaticProps true (some "never-saved") (fun _ => FetchResult.failure (some 403))
      = some (errorProps "The requested preview edit does not exist!")
    ∧ ("The requested preview edit does not exist!" : String)
        ≠ "the requested preview does not exist" := by
  exact ⟨rfl, by decide⟩

/-- C2, amended.  A preview resolution whose fetch fails with status code
403 (object missing and access denied collapsed) yields the error outcome
with message `"The requested preview edit does not exist!"`. -/
theorem notExist_classification (sid : String) (store : Store)
    (h : store (sid ++ ".json") = FetchResult.failure (some 403)) :
    getStaticProps true (some sid) store = some (errorProps notExistMessage) := by
  simp [getStaticProps, h]

/-- C2, witness: the amended theorem applied to the never-saved id. -/
theorem notExist_classification_witness :
    ((fun _ => FetchResult.failure (some 403) : Store) ("never-saved" ++ ".json")
        = FetchResult.failure (some 403))
    ∧ getStaticProps true (some "never-saved") (fun _ => FetchResult.failure (some 403))
        = some (errorProps notExistMessage) :=
  ⟨rfl, notExist_classification "never-saved" (fun _ => FetchResult.failure (some 403)) rfl⟩

/-- C3, counterexample.  A fetch failure with a non-403 status yields the
message `"An error has occurred while connecting to S3. Please refresh the
page to try again."` (index.tsx:58), which is not the string
`"a connection error occurred, please retry"` stated by the claim. -/
theorem connection_message_counterexample :
    getStaticProps true (some "snap") (fun _ => FetchResult.failure (some 500))
      = some (errorProps
          "An error has occurred while connecting to S3. Please refresh the page to try again.")
    ∧ ("An error has occurred while connecting to S3. Please refresh the page to try again." :
          String)
        ≠ "a connection error occurred, please retry" := by
  exact ⟨rfl, by decide⟩

/-- C3, amended.  A preview resolution whose fetch fails with any status
classification other than 403 yields the error outcome with the connection
message, and that message is textually distinct from the not-exists
message. -/
theorem connection_classification (sid : String) (store : Store) (status : Option Nat)
    (h : store (sid ++ ".json") = FetchResult.failure status)
    (h403 : status ≠ some 403) :
    getStaticProps true (some sid) store = some (errorProps connectionErrorMessage)
    ∧ connectionErrorMessage ≠ notExistMessage := by
  refine ⟨?_, by decide⟩
  simp [getStaticProps, h, h403]

/-- C3, witness: the amended theorem applied to a fetch failing with no
status code at all. -/
theorem connection_classification_witness :
    ((fun _ => FetchResult.failure none : Store) ("snap" ++ ".json")
        = FetchResult.failure none)
    ∧ ((none : Option Nat) ≠ some 403)
    ∧ (getStaticProps true (some "snap") (fun _ => FetchResult.failure none)
          = some (errorProps connectionErrorMessage)
       ∧ connectionErrorMessage ≠ notExistMessage) :=
  ⟨rfl, by decide,
   connection_classification "snap" (fun _ => FetchResult.failure none) none rfl (by decide)⟩

/-- C4.  With the preview flag false the decision is the normal render with
no storage access: the result is the same for any two stores, and equals
the plain `{ isPreview: false }` props. -/
theorem normal_render_no_storage (previewData : Option String) (s₁ s₂ : Store) :
    getStaticProps false previewData s₁ = some normalProps
    ∧ getStaticProps false previewData s₁ = getStaticProps false previewData s₂ :=
  ⟨rfl, rfl⟩

/-- C9.  Whenever the `try` block throws — the fetch fails, or it succeeds
but the body is not valid JSON — the returned props are an `errorProps`:
`isPreview` is false, `hasError` is true, a message is present, and
`contents` and `snapshotId` are absent. -/
theorem failure_props_shape (sid : String) (store : Store)
    (h : (∃ st, store (sid ++ ".json") = FetchResult.failure st)
         ∨ store (sid ++ ".json") = FetchResult.success Blob.invalid) :
    ∃ m, getStaticProps true (some sid) store = some (errorProps m)
      ∧ (errorProps m).isPreview = false
      ∧ (errorProps m).hasError = some true
      ∧ (errorProps m).message = some m
      ∧ (errorProps m).contents = none
      ∧ (errorProps m).snapshotId = none := by
  rcases h with ⟨st, h⟩ | h
  · exact ⟨if st = some 403 then notExistMessage else connectionErrorMessage,
      by simp [getStaticProps, h], rfl, rfl, rfl, rfl, rfl⟩
  · exact ⟨connectionErrorMessage, by simp [getStaticProps, h, parseBody], rfl, rfl, rfl, rfl, rfl⟩

/-- C9, witness: the theorem applied to a store whose fetch fails with
status 403. -/
theorem failure_props_shape_witness :
    ((∃ st, (fun _ => FetchResult.failure (some 403) : Store) ("x" ++ ".json")
          = FetchResult.failure st)
      ∨ (fun _ => FetchResult.failure (some 403) : Store) ("x" ++ ".json")
          = FetchResult.success Blob.invalid)
    ∧ ∃ m, getStaticProps true (some "x") (fun _ => FetchResult.failure (some 403))
          = some (errorProps m)
        ∧ (errorProps m).isPreview = false
        ∧ (errorProps m).hasError = some true
        ∧ (errorProps m).message = some m
        ∧ (errorProps m).contents = none
        ∧ (errorProps m).snapshotId = none :=
  ⟨Or.inl ⟨some 403, rfl⟩,
   failure_props_shape "x" (fun _ => FetchResult.failure (some 403)) (Or.inl ⟨some 403, rfl⟩)⟩

/-- C10.  When the fetch succeeds but the body is not valid JSON, resolution
does not crash and does not yield a preview: `JSON.parse` throws an error
with no 403 status code, so the outcome is the connection-error message,
not the not-exists one. -/
theorem invalid_json_classification (sid : String) (store : Store)
    (h : store (sid ++ ".json") = FetchResult.success Blob.invalid) :
    getStaticProps true (some sid) store = some (errorProps connectionErrorMessage)
    ∧ connectionErrorMessage ≠ notExistMessage :=
  ⟨by simp [getStaticProps, h, parseBody], by decide⟩

/-- C10, witness: the theorem applied to a store holding a non-JSON body. -/
theorem invalid_json_classification_witness :
    ((fun _ => FetchResult.success Blob.invalid : Store) ("x" ++ ".json")
        = FetchResult.success Blob.invalid)
    ∧ (getStaticProps true (some "x") (fun _ => FetchResult.success Blob.invalid)
          = some (errorProps connectionErrorMessage)
       ∧ connectionErrorMessage ≠ notExistMessage) :=
  ⟨rfl, invalid_json_classification "x" (fun _ => FetchResult.success Blob.invalid) rfl⟩

/-- Requests issued by one step: exactly one for a `shareClick` hitting a
free guard, none otherwise. -/
lemma step_requests_length (s : ClientState) (e : Event) :
    ((step s e).2).length
      = match e with
        | Event.shareClick _ => if s.hasSaveRequest then 0 else 1
        | _ => 0 := by
  cases e with
  | toggleEdit => rfl
  | shareClick page => by_cases h : s.hasSaveRequest <;> simp [step, h]
  | saveResponse r => cases r <;> rfl
  | clearError => rfl
  | clearSnapshot => rfl

/-- Across any event sequence, the number of outbound save requests equals
the number of accepted transitions into sharing. -/
lemma run_requests_count (s : ClientState) (es : List Event) :
    ((run s es).2).length = acceptedShares s es := by
  induction es generalizing s with
  | nil => rfl
  | cons e es ih =>
    have h := step_requests_length s e
    simp [run, acceptedShares, ih, h]

/-- C5.  Never two saves in flight: a `share()` invocation while a prior
one is still pending issues no save request and changes nothing, and across
every event sequence the number of save calls observed equals the number of
accepted transitions into `Sharing`. -/
theorem one_save_per_accepted_share (s t : ClientState) (page : List EditableEl)
    (es : List Event) (h : s.hasSaveRequest = true) :
    (step s (Event.shareClick page)).2 = []
    ∧ (step s (Event.shareClick page)).1 = s
    ∧ ((run t es).2).length = acceptedShares t es :=
  ⟨by simp [step, h], by simp [step, h], run_requests_count t es⟩

/-- C5, witness: a pending guard suppresses the second `share()`; in the
concrete trace the second click is suppressed, so one request is observed
for the one accepted share. -/
theorem one_save_per_accepted_share_witness :
    (setSharing initialState true).hasSaveRequest = true
    ∧ ((step (setSharing initialState true)
          (Event.shareClick [⟨some "title", true, "Hello"⟩])).2 = []
       ∧ (step (setSharing initialState true)
            (Event.shareClick [⟨some "title", true, "Hello"⟩])).1
          = setSharing initialState true
       ∧ ((run initialState
            [Event.toggleEdit,
             Event.shareClick [⟨some "title", true, "Hello"⟩],
             Event.shareClick [⟨some "title", true, "Bye"⟩],
             Event.saveResponse (SaveResult.ok "s1")]).2).length
          = acceptedShares initialState
              [Event.toggleEdit,
               Event.shareClick [⟨some "title", true, "Hello"⟩],
               Event.shareClick [⟨some "title", true, "Bye"⟩],
               Event.saveResponse (SaveResult.ok "s1")]) :=
  ⟨rfl, one_save_per_accepted_share (setSharing initialState true) initialState
      [⟨some "title", true, "Hello"⟩]
      [Event.toggleEdit,
       Event.shareClick [⟨some "title", true, "Hello"⟩],
       Event.shareClick [⟨some "title", true, "Bye"⟩],
       Event.saveResponse (SaveResult.ok "s1")] rfl⟩

/-- C6.  Guard release: when a save request settles — success or failure —
the `finally` continuation releases the in-flight guard unconditionally, so
a subsequent `share()` is accepted again (it issues exactly one request). -/
theorem guard_released_on_completion (s : ClientState) (r : SaveResult)
    (page : List EditableEl) :
    ((step s (Event.saveResponse r)).1).hasSaveRequest = false
    ∧ ((step ((step s (Event.saveResponse r)).1) (Event.shareClick page)).2).length = 1 := by
  cases r <;> exact ⟨rfl, rfl⟩

/-- C7, counterexample.  After the trace enable-edit, share, save succeeds,
the session shows the share link; dismissing it yields `Editing` — not
`Viewing` — because `clearSnapshot` leaves `isEdit` set (index.tsx:71). -/
theorem dismissal_counterexample :
    sessionState (run initialState
        [Event.toggleEdit, Event.shareClick [], Event.saveResponse (SaveResult.ok "s1")]).1
      = SessionState.ShowingLink "s1"
    ∧ sessionState (run initialState
        [Event.toggleEdit, Event.shareClick [], Event.saveResponse (SaveResult.ok "s1"),
         Event.clearSnapshot]).1
      = SessionState.Editing
    ∧ SessionState.Editing ≠ SessionState.Viewing :=
  ⟨rfl, rfl, by decide⟩

/-- C7, amended.  Dismissal always clears the dismissed dialog, but lands in
the state determined by the remaining flags: the other dialog if pending,
else `Sharing` if a save is in flight, else `Editing` when edit mode is
still on, and `Viewing` only otherwise. -/
theorem dismissal_clears_dialog (s : ClientState) :
    sessionState ((step s Event.clearSnapshot).1)
      = (match s.currentError with
         | some m => SessionState.ShowingError m
         | none =>
           if s.hasSaveRequest then SessionState.Sharing
           else if s.isEdit then SessionState.Editing
           else SessionState.Viewing)
    ∧ sessionState ((step s Event.clearError).1)
      = (match s.currentSnapshotId with
         | some sid => SessionState.ShowingLink sid
         | none =>
           if s.hasSaveRequest then SessionState.Sharing
           else if s.isEdit then SessionState.Editing
           else SessionState.Viewing) := by
  constructor
  · cases h : s.currentError <;> simp [step, setSnapshotId, sessionState, h]
  · cases h : s.currentSnapshotId <;> simp [step, setError, sessionState, h]

/-- C8.  An accepted `share()` posts, in a single request to `/api/save`,
the ordered sequence read from the page: exactly the elements matching
`[id] > [contenteditable=true]`, each as `{ id: parent id, innerText }`; in
particular every editable region with an id-bearing parent appears in the
posted body. -/
theorem share_posts_page_contents (s : ClientState) (page : List EditableEl)
    (h : s.hasSaveRequest = false) :
    (step s (Event.shareClick page)).2 = [⟨"/api/save", queryEditable page⟩]
    ∧ ∀ el ∈ page, el.contentEditable = true →
        ∀ pid, el.parentId = some pid →
          (⟨pid, el.innerText⟩ : FieldEdit)
            ∈ (⟨"/api/save", queryEditable page⟩ : SaveRequest).body := by
  constructor
  · simp [step, h]
  · intro el hel hce pid hpid
    exact List.mem_filterMap.mpr ⟨el, hel, by simp [hpid, hce]⟩

/-- C8, witness: the theorem applied to a two-element page where only the
editable element with an id-bearing parent is posted. -/
theorem share_posts_page_contents_witness :
    initialState.hasSaveRequest = false
    ∧ ((step initialState
          (Event.shareClick [⟨some "title", true, "Hello"⟩, ⟨none, true, "orphan"⟩])).2
        = [⟨"/api/save",
             queryEditable [⟨some "title", true, "Hello"⟩, ⟨none, true, "orphan"⟩]⟩]
       ∧ ∀ el ∈ [(⟨some "title", true, "Hello"⟩ : EditableEl), ⟨none, true, "orphan"⟩],
           el.contentEditable = true →
           ∀ pid, el.parentId = some pid →
             (⟨pid, el.innerText⟩ : FieldEdit)
               ∈ (⟨"/api/save",
                    queryEditable [⟨some "title", true, "Hello"⟩, ⟨none, true, "orphan"⟩]⟩ :
                   SaveRequest).body) :=
  ⟨rfl, share_posts_page_contents initialState
      [⟨some "title", true, "Hello"⟩, ⟨none, true, "orphan"⟩] rfl⟩
